import Mathlib

/-!
Shallow embedding of `src/driver/src/opentpu.c` (the OpenTPU character
device driver) and verification of its specified properties.

The driver's global state consists of
  `static char message[256]` (byte storage),
  `static short messageSize` (current message length, a 16-bit C short),
  `static DEFINE_MUTEX(ioMutex)` (the session gate).

We model the byte storage as a total function `Nat → Nat` so that stores
past index 255 (the overflow the unchecked `copy_from_user` in `dev_write`
permits) are representable and observable.  The mutex is modelled as
`holder : Option Nat`: `none` when free, `some sid` when held by session
`sid` (`mutex_trylock` fails iff it is `some _`; `mutex_unlock` in
`dev_release` clears it unconditionally, exactly as the C does).

The user-space copy primitives are external to the driver; each operation
takes the copy outcome as a parameter:
  `dev_write` takes `copied`, the number of bytes `copy_from_user`
  actually copied (its C return value is `len - copied`; full success is
  `copied = len`);
  `dev_read` takes `copyOk`, whether `copy_to_user` returned 0.
`dev_read` also takes the caller's buffer length `len`; the C body never
uses it, and the model reflects that faithfully.
-/

set_option maxRecDepth 4000

namespace OpenTPU

/-- Declared capacity of the message buffer: `static char message[256]`. -/
def capacity : Nat := 256

/-- The `EBUSY` errno; `dev_open` returns `-EBUSY` when the mutex is held. -/
def EBUSY : Int := 16

/-- The `EFAULT` errno; `dev_read` returns `-EFAULT` when `copy_to_user` fails. -/
def EFAULT : Int := 14

/-- Conversion of a `size_t` value to a C `short` (16-bit signed), as in the
assignment `messageSize = len;` in `dev_write`. -/
def toShort (n : Nat) : Int :=
  let r := n % 65536
  if r < 32768 then (r : Int) else (r : Int) - 65536

/-- The driver's mutable global state: the byte storage `message` (indices
`[0, capacity)` are the declared array; larger indices are the adjacent
memory an overflowing store would corrupt), the `short messageSize`, and the
`ioMutex` modelled by its holder. -/
structure ChannelState where
  message : Nat → Nat
  messageSize : Int
  holder : Option Nat

/-- Module-load state: `message[256] = {0}`, `messageSize` zero-initialised,
mutex free. -/
def initState : ChannelState :=
  { message := fun _ => 0, messageSize := 0, holder := none }

/-- `dev_open`: `mutex_trylock(&ioMutex)`; on failure return `-EBUSY` and
change nothing, on success the caller `sid` becomes the holder and 0 is
returned. -/
def dev_open (sid : Nat) (s : ChannelState) : Int × ChannelState :=
  match s.holder with
  | some _ => (-EBUSY, s)
  | none => (0, { s with holder := some sid })

/-- `dev_release`: `mutex_unlock(&ioMutex)` unconditionally, then return 0.
Nothing else in the state is touched. -/
def dev_release (s : ChannelState) : Int × ChannelState :=
  (0, { s with holder := none })

/-- The byte sequence `copy_to_user(buffer, message, messageSize)` transfers
on success: the first `messageSize` bytes of `message`. -/
def readBytes (s : ChannelState) : List Nat :=
  (List.range s.messageSize.toNat).map s.message

/-- `dev_read`: copy `messageSize` bytes of `message` to the caller.  The
caller's buffer length `len` is ignored by the C body.  On copy success the
driver clears `messageSize` and returns 0; on copy failure it returns
`-EFAULT` and leaves the state unchanged.  The middle component is the byte
sequence delivered into the caller's buffer. -/
def dev_read (len : Nat) (copyOk : Bool) (s : ChannelState) :
    Int × List Nat × ChannelState :=
  if copyOk then
    (0, readBytes s, { s with messageSize := 0 })
  else
    (-EFAULT, [], s)

/-- `dev_write`: `copy_from_user(message, buffer, len)` copies `copied ≤ len`
bytes of the payload into `message` starting at index 0 with no bound check;
then `messageSize = len;` executes unconditionally and `len` is returned,
whether or not the copy succeeded (a failed copy is only logged). -/
def dev_write (payload : List Nat) (copied : Nat) (s : ChannelState) :
    Int × ChannelState :=
  let len := payload.length
  ((len : Int),
   { s with
     message := fun i => if i < copied then payload.getD i 0 else s.message i,
     messageSize := toShort len })

/-- The VFS events the kernel can dispatch to the driver. -/
inductive Event where
  | openOk (sid : Nat)
  | openBusy (sid : Nat)
  | write (sid : Nat) (payload : List Nat) (copied : Nat)
  | read (sid : Nat) (len : Nat) (copyOk : Bool)
  | close (sid : Nat)

/-- One dispatched file operation.  `close sid` carries the kernel VFS
contract that `release` is invoked exactly once per successfully opened
`struct file`; since `dev_open` admits at most one session at a time, the
closing session is necessarily the current holder. -/
def Step (s : ChannelState) : Event → ChannelState → Prop
  | .openOk sid, s' => s.holder = none ∧ dev_open sid s = (0, s')
  | .openBusy sid, s' => s.holder ≠ none ∧ dev_open sid s = (-EBUSY, s')
  | .write _ p c, s' => s' = (dev_write p c s).2
  | .read _ n ok, s' => s' = (dev_read n ok s).2.2
  | .close sid, s' => s.holder = some sid ∧ s' = (dev_release s).2

/-- The five bytes of the string hello. -/
def hello : List Nat := [104, 101, 108, 108, 111]

/- ### Helper lemmas -/

theorem toShort_small (n : Nat) (h : n < 32768) : toShort n = (n : Int) := by
  unfold toShort
  have hm : n % 65536 = n := Nat.mod_eq_of_lt (by omega)
  simp [hm, h]

theorem map_range_getD (l : List Nat) (f : Nat → Nat)
    (h : ∀ i, i < l.length → f i = l.getD i 0) :
    (List.range l.length).map f = l := by
  apply List.ext_getElem
  · simp
  · intro i h1 h2
    simp only [List.getElem_map, List.getElem_range]
    rw [h i h2, List.getD_eq_getElem]

theorem readBytes_eq (s : ChannelState) (m : List Nat)
    (hsize : s.messageSize = (m.length : Int))
    (hmem : ∀ i, i < m.length → s.message i = m.getD i 0) :
    readBytes s = m := by
  unfold readBytes
  rw [hsize]
  simpa using map_range_getD m s.message hmem

/- ### Claim theorems -/

/-- C1: the claimed capacity bound fails on the code.  At the failing input —
a write of 300 bytes of `'x'` (120) — `dev_write` returns 300 (not 256,
no truncation is reported), sets `messageSize` to 300, and stores the byte
`'x'` at index 299, at or beyond the declared capacity of 256 (index 299 held
0 before the call). -/
theorem dev_write_overflow_at_300 :
    (dev_write (List.replicate 300 120) 300 initState).1 = 300 ∧
    (dev_write (List.replicate 300 120) 300 initState).2.messageSize = 300 ∧
    (dev_write (List.replicate 300 120) 300 initState).2.message 299 = 120 ∧
    initState.message 299 = 0 ∧ 256 ≤ 299 := by
  refine ⟨by decide, by decide, ?_, rfl, by decide⟩
  show (if 299 < 300 then (List.replicate 300 120).getD 299 0 else 0) = 120
  simp

/-- C2: the claimed invariant `0 ≤ validLength ≤ capacity` is not preserved:
a single `dev_write` of 300 bytes from the initial state drives `messageSize`
to 300, exceeding the capacity of 256. -/
theorem dev_write_breaks_size_invariant :
    capacity = 256 ∧
    (dev_write (List.replicate 300 97) 300 initState).2.messageSize = 300 ∧
    ¬ (dev_write (List.replicate 300 97) 300 initState).2.messageSize ≤
        (capacity : Int) := by
  have h : (dev_write (List.replicate 300 97) 300 initState).2.messageSize
      = 300 := by
    show toShort (List.replicate 300 97).length = 300
    rw [List.length_replicate, toShort_small 300 (by norm_num)]
    norm_num
  exact ⟨rfl, h, by rw [h]; decide⟩

/-- C4: `dev_open` fails with `-EBUSY` exactly when the gate is held; in that
case the state is returned unchanged; when the gate is free it succeeds (returns
0) and records the caller as holder; and immediately after a `dev_release` an
open always succeeds. -/
theorem dev_open_busy_iff (s : ChannelState) (sid : Nat) :
    ((dev_open sid s).1 = -EBUSY ↔ s.holder.isSome) ∧
    ((dev_open sid s).1 = 0 ↔ s.holder = none) ∧
    (dev_open sid s).2 =
      (if s.holder.isSome then s else { s with holder := some sid }) ∧
    dev_open sid ((dev_release s).2) = (0, { s with holder := some sid }) := by
  cases h : s.holder <;>
    simp [dev_open, dev_release, EBUSY, h]

/-- C5: when `copy_to_user` fails, `dev_read` returns `-EFAULT`, delivers
nothing, and leaves the whole state — in particular `messageSize` — exactly
as it was before the call: no drain occurs on a failed read. -/
theorem dev_read_fault_frame (s : ChannelState) (len : Nat) :
    dev_read len false s = (-EFAULT, [], s) := rfl

/-- C3: a fully successful write of `m` (within capacity) followed by a
successful read delivers exactly `m` and resets `messageSize` to 0; a second
immediate read before the next write delivers zero bytes and returns 0,
which is not an error. -/
theorem write_read_drain (s : ChannelState) (m : List Nat) (n n' : Nat)
    (hlen : m.length ≤ capacity) :
    (dev_read n true (dev_write m m.length s).2).2.1 = m ∧
    (dev_read n true (dev_write m m.length s).2).2.2.messageSize = 0 ∧
    (dev_read n' true
      (dev_read n true (dev_write m m.length s).2).2.2).2.1 = [] ∧
    (dev_read n' true
      (dev_read n true (dev_write m m.length s).2).2.2).1 = 0 := by
  have hlt : m.length < 32768 := lt_of_le_of_lt hlen (by norm_num [capacity])
  have hdel : readBytes (dev_write m m.length s).2 = m := by
    refine readBytes_eq _ m (toShort_small m.length hlt) ?_
    intro i hi
    show (if i < m.length then m.getD i 0 else s.message i) = m.getD i 0
    rw [if_pos hi]
  exact ⟨hdel, rfl, rfl, rfl⟩

theorem write_read_drain_witness :
    hello.length ≤ capacity ∧
    ((dev_read 5 true (dev_write hello hello.length initState).2).2.1 = hello ∧
     (dev_read 5 true
       (dev_write hello hello.length initState).2).2.2.messageSize = 0 ∧
     (dev_read 5 true
       (dev_read 5 true
         (dev_write hello hello.length initState).2).2.2).2.1 = [] ∧
     (dev_read 5 true
       (dev_read 5 true
         (dev_write hello hello.length initState).2).2.2).1 = 0) :=
  ⟨by decide, write_read_drain initState hello 5 5 (by decide)⟩

/-- C6 counterexample: a write whose copy-in completely fails (0 of 3 bytes
copied) still returns 3 — the requested length, the very value a fully
successful write of the same payload returns — and not `-EFAULT`; the fault is
not distinguishable from success in the returned outcome. -/
theorem dev_write_fault_counterexample :
    (dev_write [1, 2, 3] 0 initState).1 = 3 ∧
    (dev_write [1, 2, 3] 0 initState).1 = (dev_write [1, 2, 3] 3 initState).1 ∧
    ¬ (dev_write [1, 2, 3] 0 initState).1 = -EFAULT := by decide

/-- C6 (amended): when the copy-in fails (fewer than the requested number of
bytes are copied), `dev_write` merely logs the failure: it still returns the
requested length, indistinguishable from a successful write by its return
value, and still sets `messageSize` to the (short-converted) requested
length. -/
theorem dev_write_fault_returns_len (s : ChannelState) (payload : List Nat)
    (copied : Nat) (hfault : copied < payload.length) :
    (dev_write payload copied s).1 = (payload.length : Int) ∧
    (dev_write payload copied s).2.messageSize = toShort payload.length :=
  ⟨rfl, rfl⟩

theorem dev_write_fault_returns_len_witness :
    0 < ([1, 2, 3] : List Nat).length ∧
    ((dev_write [1, 2, 3] 0 initState).1 =
        (([1, 2, 3] : List Nat).length : Int) ∧
     (dev_write [1, 2, 3] 0 initState).2.messageSize =
        toShort ([1, 2, 3] : List Nat).length) :=
  ⟨by decide, dev_write_fault_returns_len initState [1, 2, 3] 0 (by decide)⟩

/-- C7 counterexample: after a successful write of hello, a successful read
does deliver the 5 bytes into the caller's buffer, but its return value is 0,
not 5; and a read whose caller supplies a destination capacity of only 2
still gets all 5 bytes copied out — the copy is not bounded by the
caller-supplied capacity. -/
theorem dev_read_return_counterexample :
    (dev_read 5 true (dev_write hello 5 initState).2).2.1 = hello ∧
    (dev_read 5 true (dev_write hello 5 initState).2).1 = 0 ∧
    ¬ (dev_read 5 true (dev_write hello 5 initState).2).1 = 5 ∧
    (dev_read 2 true (dev_write hello 5 initState).2).2.1.length = 5 := by
  decide

/-- C7 (amended): a successful read always returns 0 rather than the count of
bytes delivered; the bytes copied out are exactly the first `messageSize`
bytes of `message`, independent of the caller-supplied destination capacity,
which the code ignores — so the delivered count is `messageSize`, not bounded
by the destination capacity. -/
theorem dev_read_returns_zero (s : ChannelState) (n n' : Nat) :
    (dev_read n true s).1 = 0 ∧
    (dev_read n true s).2.1 = readBytes s ∧
    (dev_read n true s).2.1 = (dev_read n' true s).2.1 ∧
    (dev_read n true s).2.1.length = s.messageSize.toNat :=
  ⟨rfl, rfl, rfl, by simp [dev_read, readBytes]⟩

/-- C8: with both payloads within capacity and both copy-ins fully
successful, a write of `a` followed by a write of `b` followed by a
successful read delivers exactly `b`: the second write fully replaces the
first, and no byte of `a` leaks into the result. -/
theorem write_overwrite (s : ChannelState) (a b : List Nat) (n : Nat)
    (ha : a.length ≤ capacity) (hb : b.length ≤ capacity) :
    (dev_read n true
      (dev_write b b.length (dev_write a a.length s).2).2).2.1 = b := by
  have hlt : b.length < 32768 := lt_of_le_of_lt hb (by norm_num [capacity])
  show readBytes _ = b
  refine readBytes_eq _ b (toShort_small b.length hlt) ?_
  intro i hi
  show (if i < b.length then b.getD i 0 else _) = b.getD i 0
  rw [if_pos hi]

theorem write_overwrite_witness :
    ([1, 2] : List Nat).length ≤ capacity ∧
    ([9, 8, 7] : List Nat).length ≤ capacity ∧
    (dev_read 3 true
      (dev_write [9, 8, 7] ([9, 8, 7] : List Nat).length
        (dev_write [1, 2] ([1, 2] : List Nat).length initState).2).2).2.1 =
      [9, 8, 7] :=
  ⟨by decide, by decide,
   write_overwrite initState [1, 2] [9, 8, 7] 3 (by decide) (by decide)⟩

/-- C9: across any dispatched file operation, the gate (the mutex holder)
changes in exactly two ways: from free to held by a successful open, and from
held to free by a close of the session that currently holds it (the kernel
VFS dispatch, encoded in `Step`, invokes release only for a successfully
opened file).  Busy opens, reads and writes never change it. -/
theorem gate_transition_only_open_close (s s' : ChannelState) (e : Event)
    (hstep : Step s e s') (hchange : s'.holder ≠ s.holder) :
    (∃ sid, e = Event.openOk sid ∧ s.holder = none ∧ s'.holder = some sid) ∨
    (∃ sid, e = Event.close sid ∧ s.holder = some sid ∧ s'.holder = none) := by
  cases e with
  | openOk sid =>
      obtain ⟨hfree, hop⟩ := hstep
      simp only [dev_open, hfree, Prod.mk.injEq, true_and] at hop
      exact Or.inl ⟨sid, rfl, hfree, by rw [← hop]⟩
  | openBusy sid =>
      obtain ⟨hheld, hop⟩ := hstep
      obtain ⟨a, ha⟩ := Option.ne_none_iff_exists'.mp hheld
      simp only [dev_open, ha, Prod.mk.injEq, true_and] at hop
      exact absurd (by rw [← hop]) hchange
  | write sid p c =>
      exact absurd (by rw [hstep]; rfl) hchange
  | read sid n ok =>
      cases ok
      · exact absurd (by rw [hstep]; rfl) hchange
      · exact absurd (by rw [hstep]; rfl) hchange
  | close sid =>
      exact Or.inr ⟨sid, rfl, hstep.1, by rw [hstep.2]; rfl⟩

theorem gate_transition_witness :
    (∃ sid, Event.openOk 1 = Event.openOk sid ∧ initState.holder = none ∧
        (dev_open 1 initState).2.holder = some sid) ∨
    (∃ sid, Event.openOk 1 = Event.close sid ∧ initState.holder = some sid ∧
        (dev_open 1 initState).2.holder = none) :=
  gate_transition_only_open_close initState (dev_open 1 initState).2
    (Event.openOk 1) ⟨rfl, rfl⟩ (by decide)

/-- C10: `dev_open` and `dev_release` touch neither `message` nor
`messageSize`; consequently a message fully written in one session and never
read survives the close and the next open, and the first successful read of
the next session delivers it unchanged. -/
theorem open_close_message_frame (s : ChannelState) (sid sid' : Nat)
    (m : List Nat) (n : Nat) (hlen : m.length ≤ capacity) :
    (dev_open sid s).2.message = s.message ∧
    (dev_open sid s).2.messageSize = s.messageSize ∧
    (dev_release s).2.message = s.message ∧
    (dev_release s).2.messageSize = s.messageSize ∧
    (dev_read n true
      (dev_open sid'
        ((dev_release ((dev_write m m.length s).2)).2)).2).2.1 = m := by
  have hlt : m.length < 32768 := lt_of_le_of_lt hlen (by norm_num [capacity])
  have hread :
      (dev_read n true
        (dev_open sid'
          ((dev_release ((dev_write m m.length s).2)).2)).2).2.1 = m := by
    show readBytes _ = m
    refine readBytes_eq _ m (toShort_small m.length hlt) ?_
    intro i hi
    show (if i < m.length then m.getD i 0 else s.message i) = m.getD i 0
    rw [if_pos hi]
  refine ⟨?_, ?_, rfl, rfl, hread⟩ <;> cases h : s.holder <;> simp [dev_open, h]

theorem open_close_message_frame_witness :
    hello.length ≤ capacity ∧
    ((dev_open 2 initState).2.message = initState.message ∧
     (dev_open 2 initState).2.messageSize = initState.messageSize ∧
     (dev_release initState).2.message = initState.message ∧
     (dev_release initState).2.messageSize = initState.messageSize ∧
     (dev_read 5 true
       (dev_open 3
         ((dev_release
           ((dev_write hello hello.length initState).2)).2)).2).2.1 = hello) :=
  ⟨by decide, open_close_message_frame initState 2 3 hello 5 (by decide)⟩

end OpenTPU
